import Mathlib

/-!
Verification development for the document-loading module
(`loading_documents/document_loader.py` and `loading_documents/exceptions.py`).

The module is embedded shallowly: Python exceptions become an inductive
error type carried in `Except`, the external collaborators (the langchain
format parsers, the text splitter, `os.path.exists`) become an explicit
environment record of pure functions, and every class method of the source
becomes a Lean function over that environment.
-/

/-- A langchain `Document`: a unit of extracted text plus opaque metadata. -/
structure Document where
  page_content : String
  metadata : String
deriving DecidableEq, Repr

/-- The exceptions the module raises or handles: the three custom classes of
`exceptions.py`, Python's builtin `FileNotFoundError`, and a catch-all for any
other exception coming out of external code.  Each carries `str(e)`. -/
inductive PyException where
  | fileNotFoundError (msg : String)
  | unsupportedFileTypeError (msg : String)
  | fileLoadError (msg : String)
  | invalidConfigurationError (msg : String)
  | otherException (msg : String)
deriving DecidableEq, Repr

/-- Python's `str(e)`: the message carried by the exception. -/
def PyException.str : PyException → String
  | .fileNotFoundError m => m
  | .unsupportedFileTypeError m => m
  | .fileLoadError m => m
  | .invalidConfigurationError m => m
  | .otherException m => m

/-- Whether an exception is a `FileLoadError`. -/
def PyException.isFileLoadError : PyException → Bool
  | .fileLoadError _ => true
  | _ => false

/-- Whether an exception is a `FileNotFoundError`. -/
def PyException.isFileNotFoundError : PyException → Bool
  | .fileNotFoundError _ => true
  | _ => false

/-- Whether an exception is an `UnsupportedFileTypeError`. -/
def PyException.isUnsupportedFileTypeError : PyException → Bool
  | .unsupportedFileTypeError _ => true
  | _ => false

/-- The text splitter produced by `RecursiveCharacterTextSplitter(chunk_size=...,
chunk_overlap=...)`; only its two configuration parameters are observable here. -/
structure RecursiveCharacterTextSplitter where
  chunk_size : Int
  chunk_overlap : Int
deriving DecidableEq, Repr

/-- The external world the module runs against: the filesystem existence check
and the three langchain loaders.  Each external call either returns documents
or fails with some exception whose `str` is the given string. -/
structure Env where
  os_path_exists : String → Bool
  pyPDFLoader_load : String → Except String (List Document)
  pyPDFLoader_load_and_split :
    String → RecursiveCharacterTextSplitter → Except String (List Document)
  docx2txtLoader_load : String → Except String (List Document)
  docx2txtLoader_load_and_split :
    String → RecursiveCharacterTextSplitter → Except String (List Document)
  textLoader_load : String → Except String (List Document)
  textLoader_load_and_split :
    String → RecursiveCharacterTextSplitter → Except String (List Document)

/-- Index of the last occurrence of `c` in `l` (as in Python's `str.rfind`),
`-1` when absent; `i` is the index of the head of `l`, `acc` the best so far. -/
def rfindAux (l : List Char) (c : Char) (i : Int) (acc : Int) : Int :=
  match l with
  | [] => acc
  | x :: xs => rfindAux xs c (i + 1) (if x = c then i else acc)

/-- Python's `p.rfind(c)`: last index of `c` in `p`, or `-1`. -/
def rfind (p : List Char) (c : Char) : Int :=
  rfindAux p c 0 (-1)

/-- The extension part of `os.path.splitext(p)` on POSIX: the substring from
the last `.` of the final path component, unless every character of that
component before the dot is itself a dot (so dotfiles have no extension). -/
def splitext_ext (p : String) : String :=
  let l := p.toList
  let sepIndex := rfind l '/'
  let dotIndex := rfind l '.'
  if sepIndex < dotIndex then
    let base := (l.drop (sepIndex + 1).toNat).take (dotIndex - sepIndex - 1).toNat
    if base.any (fun ch => ch ≠ '.') then String.mk (l.drop dotIndex.toNat)
    else ""
  else ""

/-- Python's `s.lower()` restricted to the ASCII strings the module compares. -/
def lowerStr (s : String) : String :=
  String.mk (s.toList.map Char.toLower)

/-- The lowered extension `create_loader` dispatches on:
`ext.lower()` after `_, ext = os.path.splitext(file_path)`. -/
def extLower (p : String) : String :=
  lowerStr (splitext_ext p)

/-- A loader object: one of the three concrete `DocumentLoader` subclasses,
bound to its `file_path`. -/
inductive DocumentLoader where
  | pdf (file_path : String)
  | docx (file_path : String)
  | txt (file_path : String)
deriving DecidableEq, Repr

/-- The `file_path` attribute each concrete loader stores. -/
def DocumentLoader.file_path : DocumentLoader → String
  | .pdf fp => fp
  | .docx fp => fp
  | .txt fp => fp

/-- `PDFDocumentLoader.__init__`: raises `FileNotFoundError` when the path
does not exist, otherwise binds the path. -/
def PDFDocumentLoader.init (env : Env) (file_path : String) :
    Except PyException DocumentLoader :=
  if !(env.os_path_exists file_path) then
    .error (.fileNotFoundError ("File not found: " ++ file_path))
  else
    .ok (.pdf file_path)

/-- `DOCXDocumentLoader.__init__`: raises `FileNotFoundError` when the path
does not exist, otherwise binds the path. -/
def DOCXDocumentLoader.init (env : Env) (file_path : String) :
    Except PyException DocumentLoader :=
  if !(env.os_path_exists file_path) then
    .error (.fileNotFoundError ("File not found: " ++ file_path))
  else
    .ok (.docx file_path)

/-- `TXTDocumentLoader.__init__`: raises `FileNotFoundError` when the path
does not exist, otherwise binds the path. -/
def TXTDocumentLoader.init (env : Env) (file_path : String) :
    Except PyException DocumentLoader :=
  if !(env.os_path_exists file_path) then
    .error (.fileNotFoundError ("File not found: " ++ file_path))
  else
    .ok (.txt file_path)

/-- The underlying langchain `load()` call of each loader variant. -/
def underlying_load (env : Env) : DocumentLoader → Except String (List Document)
  | .pdf fp => env.pyPDFLoader_load fp
  | .docx fp => env.docx2txtLoader_load fp
  | .txt fp => env.textLoader_load fp

/-- The underlying langchain `load_and_split(text_splitter=...)` call of each
loader variant. -/
def underlying_load_and_split (env : Env) (ts : RecursiveCharacterTextSplitter) :
    DocumentLoader → Except String (List Document)
  | .pdf fp => env.pyPDFLoader_load_and_split fp ts
  | .docx fp => env.docx2txtLoader_load_and_split fp ts
  | .txt fp => env.textLoader_load_and_split fp ts

/-- The message prefix each variant's `load` uses when wrapping a parser
error into `FileLoadError`. -/
def load_error_text : DocumentLoader → String
  | .pdf _ => "Error loading PDF file: "
  | .docx _ => "Error loading DOCX file: "
  | .txt _ => "Error loading TXT file: "

/-- The message prefix each variant's `load_and_split` uses when wrapping a
parser error into `FileLoadError`. -/
def load_and_split_error_text : DocumentLoader → String
  | .pdf _ => "Error loading and splitting PDF file: "
  | .docx _ => "Error loading and splitting DOCX file: "
  | .txt _ => "Error loading and splitting TXT file: "

/-- `load()` of the concrete loaders: delegate to the underlying parser and
re-raise any failure as `FileLoadError` with the variant's message text
followed by `str(e)`. -/
def DocumentLoader.load (env : Env) (l : DocumentLoader) :
    Except PyException (List Document) :=
  match underlying_load env l with
  | .ok docs => .ok docs
  | .error e => .error (.fileLoadError (load_error_text l ++ e))

/-- `load_and_split(text_splitter)` of the concrete loaders: delegate to the
underlying parser and re-raise any failure as `FileLoadError` with the
variant's message text followed by `str(e)`. -/
def DocumentLoader.load_and_split (env : Env) (l : DocumentLoader)
    (text_splitter : RecursiveCharacterTextSplitter) :
    Except PyException (List Document) :=
  match underlying_load_and_split env text_splitter l with
  | .ok docs => .ok docs
  | .error e => .error (.fileLoadError (load_and_split_error_text l ++ e))

/-- `DocumentLoaderFactory.create_loader`: raise `FileNotFoundError` when the
path does not exist; otherwise dispatch on the lowered extension, raising
`UnsupportedFileTypeError` when it is none of `.pdf`, `.docx`, `.txt`. -/
def DocumentLoaderFactory.create_loader (env : Env) (file_path : String) :
    Except PyException DocumentLoader :=
  if !(env.os_path_exists file_path) then
    .error (.fileNotFoundError ("File not found: " ++ file_path))
  else
    let ext := extLower file_path
    if ext = ".pdf" then PDFDocumentLoader.init env file_path
    else if ext = ".docx" then DOCXDocumentLoader.init env file_path
    else if ext = ".txt" then TXTDocumentLoader.init env file_path
    else .error (.unsupportedFileTypeError ("Unsupported file type: " ++ ext))

/-- The validated chunking configuration. -/
structure DocumentProcessorConfig where
  chunk_size : Int
  chunk_overlap : Int
deriving DecidableEq, Repr

/-- `DocumentProcessorConfig.__init__`: validate size positivity, then overlap
non-negativity, then overlap-vs-size, raising `InvalidConfigurationError` at
the first violated check; otherwise store both parameters. -/
def DocumentProcessorConfig.init (chunk_size : Int) (chunk_overlap : Int) :
    Except PyException DocumentProcessorConfig :=
  if chunk_size ≤ 0 then
    .error (.invalidConfigurationError "chunk_size must be positive")
  else if chunk_overlap < 0 then
    .error (.invalidConfigurationError "chunk_overlap cannot be negative")
  else if chunk_overlap ≥ chunk_size then
    .error (.invalidConfigurationError "chunk_overlap must be smaller than chunk_size")
  else
    .ok { chunk_size := chunk_size, chunk_overlap := chunk_overlap }

/-- `DocumentProcessorConfig.create_text_splitter`: build a
`RecursiveCharacterTextSplitter` from the stored parameters. -/
def DocumentProcessorConfig.create_text_splitter (c : DocumentProcessorConfig) :
    RecursiveCharacterTextSplitter :=
  { chunk_size := c.chunk_size, chunk_overlap := c.chunk_overlap }

/-- The facade object; it holds a configuration. -/
structure DocumentProcessor where
  config : DocumentProcessorConfig
deriving DecidableEq, Repr

/-- The body of the `try` block of `DocumentProcessor.process_document`:
resolve a loader through the factory, then either `load_and_split` with a
splitter built from the held configuration, or plain `load`. -/
def DocumentProcessor.process_document_body (env : Env) (self : DocumentProcessor)
    (file_path : String) (load_and_split : Bool) :
    Except PyException (List Document) :=
  match DocumentLoaderFactory.create_loader env file_path with
  | .error e => .error e
  | .ok loader =>
    if load_and_split then
      loader.load_and_split env self.config.create_text_splitter
    else
      loader.load env

/-- `DocumentProcessor.process_document`: run the body and apply the three
`except` clauses: `FileNotFoundError` and `UnsupportedFileTypeError` become
`FileLoadError` with the "Document processing failed: " text, any other
exception becomes `FileLoadError` with the
"Unexpected error during document processing: " text. -/
def DocumentProcessor.process_document (env : Env) (self : DocumentProcessor)
    (file_path : String) (load_and_split : Bool := true) :
    Except PyException (List Document) :=
  match self.process_document_body env file_path load_and_split with
  | .ok docs => .ok docs
  | .error (.fileNotFoundError m) =>
    .error (.fileLoadError ("Document processing failed: " ++ m))
  | .error (.unsupportedFileTypeError m) =>
    .error (.fileLoadError ("Document processing failed: " ++ m))
  | .error e =>
    .error (.fileLoadError ("Unexpected error during document processing: " ++ e.str))

/-- Whether a factory result is an `UnsupportedFileTypeError` signal. -/
def signals_unsupported (r : Except PyException DocumentLoader) : Bool :=
  match r with
  | .error (.unsupportedFileTypeError _) => true
  | _ => false

/-- A sample document for concrete environments. -/
def sampleDoc : Document :=
  { page_content := "hello world", metadata := "p1" }

/-- Environment in which no path exists. -/
def envNone : Env where
  os_path_exists := fun _ => false
  pyPDFLoader_load := fun _ => .ok [sampleDoc]
  pyPDFLoader_load_and_split := fun _ _ => .ok [sampleDoc]
  docx2txtLoader_load := fun _ => .ok [sampleDoc]
  docx2txtLoader_load_and_split := fun _ _ => .ok [sampleDoc]
  textLoader_load := fun _ => .ok [sampleDoc]
  textLoader_load_and_split := fun _ _ => .ok [sampleDoc]

/-- Environment in which every path exists and every parse succeeds. -/
def envOk : Env where
  os_path_exists := fun _ => true
  pyPDFLoader_load := fun _ => .ok [sampleDoc]
  pyPDFLoader_load_and_split := fun _ _ => .ok [sampleDoc]
  docx2txtLoader_load := fun _ => .ok [sampleDoc]
  docx2txtLoader_load_and_split := fun _ _ => .ok [sampleDoc]
  textLoader_load := fun _ => .ok [sampleDoc]
  textLoader_load_and_split := fun _ _ => .ok [sampleDoc]

/-- Environment in which every path exists and every parse raises an
exception whose `str` is "boom". -/
def envBoom : Env where
  os_path_exists := fun _ => true
  pyPDFLoader_load := fun _ => .error "boom"
  pyPDFLoader_load_and_split := fun _ _ => .error "boom"
  docx2txtLoader_load := fun _ => .error "boom"
  docx2txtLoader_load_and_split := fun _ _ => .error "boom"
  textLoader_load := fun _ => .error "boom"
  textLoader_load_and_split := fun _ _ => .error "boom"

/-- A processor holding the default configuration values 100/20. -/
def procDefault : DocumentProcessor :=
  { config := { chunk_size := 100, chunk_overlap := 20 } }

/-- C1: for every call to `process_document`, a `FileNotFoundError` or
`UnsupportedFileTypeError` from `create_loader` is re-signaled as
`FileLoadError` with the "Document processing failed: " text followed by the
original message; any other exception raised by the body is re-signaled as
`FileLoadError` with the "Unexpected error during document processing: " text
followed by the original message; and every error escaping the facade is a
`FileLoadError`. -/
theorem facade_error_policy (env : Env) (self : DocumentProcessor)
    (file_path : String) (ls : Bool) :
    (∀ m, DocumentLoaderFactory.create_loader env file_path =
        .error (.fileNotFoundError m) →
      self.process_document env file_path ls =
        .error (.fileLoadError ("Document processing failed: " ++ m)))
  ∧ (∀ m, DocumentLoaderFactory.create_loader env file_path =
        .error (.unsupportedFileTypeError m) →
      self.process_document env file_path ls =
        .error (.fileLoadError ("Document processing failed: " ++ m)))
  ∧ (∀ e, self.process_document_body env file_path ls = .error e →
      e.isFileNotFoundError = false → e.isUnsupportedFileTypeError = false →
      self.process_document env file_path ls =
        .error (.fileLoadError ("Unexpected error during document processing: " ++ e.str)))
  ∧ (∀ e, self.process_document env file_path ls = .error e →
      e.isFileLoadError = true) := by
  refine ⟨?_, ?_, ?_, ?_⟩
  · intro m h
    simp [DocumentProcessor.process_document, DocumentProcessor.process_document_body, h]
  · intro m h
    simp [DocumentProcessor.process_document, DocumentProcessor.process_document_body, h]
  · intro e h h1 h2
    cases e <;>
      simp_all [DocumentProcessor.process_document, PyException.isFileNotFoundError,
        PyException.isUnsupportedFileTypeError, PyException.str]
  · intro e h
    unfold DocumentProcessor.process_document at h
    cases hb : self.process_document_body env file_path ls with
    | ok docs => rw [hb] at h; simp at h
    | error ex =>
      rw [hb] at h
      cases ex <;> simp at h <;> subst h <;> rfl

/-- Witness for C1 at a concrete input: a missing `.txt` path. -/
theorem facade_error_policy_witness :
    procDefault.process_document envNone "a.txt" true =
      .error (.fileLoadError ("Document processing failed: " ++ "File not found: a.txt")) :=
  (facade_error_policy envNone procDefault "a.txt" true).1 "File not found: a.txt" rfl

/-- C2: `DocumentProcessorConfig` construction signals
`InvalidConfigurationError` exactly when `chunk_size ≤ 0`, `chunk_overlap < 0`
or `chunk_overlap ≥ chunk_size`; the checks are performed in that order, so
the first violated condition determines the message; all other inputs
construct successfully with the parameters stored. -/
theorem config_validation (chunk_size chunk_overlap : Int) :
    ((∃ m, DocumentProcessorConfig.init chunk_size chunk_overlap =
        .error (.invalidConfigurationError m)) ↔
      (chunk_size ≤ 0 ∨ chunk_overlap < 0 ∨ chunk_overlap ≥ chunk_size))
  ∧ (chunk_size ≤ 0 →
      DocumentProcessorConfig.init chunk_size chunk_overlap =
        .error (.invalidConfigurationError "chunk_size must be positive"))
  ∧ (0 < chunk_size → chunk_overlap < 0 →
      DocumentProcessorConfig.init chunk_size chunk_overlap =
        .error (.invalidConfigurationError "chunk_overlap cannot be negative"))
  ∧ (0 < chunk_size → 0 ≤ chunk_overlap → chunk_overlap ≥ chunk_size →
      DocumentProcessorConfig.init chunk_size chunk_overlap =
        .error (.invalidConfigurationError "chunk_overlap must be smaller than chunk_size"))
  ∧ (0 < chunk_size → 0 ≤ chunk_overlap → chunk_overlap < chunk_size →
      DocumentProcessorConfig.init chunk_size chunk_overlap =
        .ok { chunk_size := chunk_size, chunk_overlap := chunk_overlap }) := by
  by_cases h1 : chunk_size ≤ 0 <;> by_cases h2 : chunk_overlap < 0 <;>
    by_cases h3 : chunk_overlap ≥ chunk_size <;>
    simp [DocumentProcessorConfig.init, h1, h2, h3]

/-- Witness for C2 at a concrete input: `chunk_size = 0` fails the first
check. -/
theorem config_validation_witness :
    DocumentProcessorConfig.init 0 5 =
      .error (.invalidConfigurationError "chunk_size must be positive") :=
  (config_validation 0 5).2.1 (by decide)

/-- C3: for every existing path whose lowered extension is `.pdf`, `.docx` or
`.txt`, `create_loader` returns, without error, the loader variant matching
the extension, bound to that path. -/
theorem create_loader_recognized (env : Env) (file_path : String)
    (hex : env.os_path_exists file_path = true) :
    (extLower file_path = ".pdf" →
      DocumentLoaderFactory.create_loader env file_path = .ok (.pdf file_path))
  ∧ (extLower file_path = ".docx" →
      DocumentLoaderFactory.create_loader env file_path = .ok (.docx file_path))
  ∧ (extLower file_path = ".txt" →
      DocumentLoaderFactory.create_loader env file_path = .ok (.txt file_path)) := by
  refine ⟨?_, ?_, ?_⟩ <;> intro h <;>
    simp [DocumentLoaderFactory.create_loader, PDFDocumentLoader.init,
      DOCXDocumentLoader.init, TXTDocumentLoader.init, hex, h]

/-- Witness for C3 at a concrete input: an existing `doc.PDF` yields the PDF
variant (case-insensitively). -/
theorem create_loader_recognized_witness :
    DocumentLoaderFactory.create_loader envOk "doc.PDF" = .ok (.pdf "doc.PDF") :=
  (create_loader_recognized envOk "doc.PDF" rfl).1 (by decide)

/-- Counterexample to C4 as stated: for a non-existing path with an
unrecognized extension, `create_loader` signals `FileNotFoundError`, not
`UnsupportedFileTypeError` (the existence check runs first). -/
theorem create_loader_unsupported_cex :
    extLower "a.xyz" ≠ ".pdf" ∧ extLower "a.xyz" ≠ ".docx" ∧ extLower "a.xyz" ≠ ".txt"
  ∧ signals_unsupported (DocumentLoaderFactory.create_loader envNone "a.xyz") = false
  ∧ DocumentLoaderFactory.create_loader envNone "a.xyz" =
      .error (.fileNotFoundError "File not found: a.xyz") :=
  ⟨by decide, by decide, by decide, rfl, rfl⟩

/-- C4 (amended): for every existing path whose lowered extension is none of
`.pdf`, `.docx`, `.txt`, `create_loader` signals `UnsupportedFileTypeError`
naming the extension. -/
theorem create_loader_unsupported (env : Env) (file_path : String)
    (hex : env.os_path_exists file_path = true)
    (h1 : extLower file_path ≠ ".pdf") (h2 : extLower file_path ≠ ".docx")
    (h3 : extLower file_path ≠ ".txt") :
    DocumentLoaderFactory.create_loader env file_path =
      .error (.unsupportedFileTypeError ("Unsupported file type: " ++ extLower file_path)) := by
  simp [DocumentLoaderFactory.create_loader, hex, h1, h2, h3]

/-- Witness for amended C4 at a concrete input: an existing `a.xyz`. -/
theorem create_loader_unsupported_witness :
    DocumentLoaderFactory.create_loader envOk "a.xyz" =
      .error (.unsupportedFileTypeError ("Unsupported file type: " ++ extLower "a.xyz")) :=
  create_loader_unsupported envOk "a.xyz" rfl (by decide) (by decide) (by decide)

/-- C5: for every path that does not exist, `create_loader` and all three
direct loader constructors signal `FileNotFoundError` naming the path. -/
theorem missing_path_file_not_found (env : Env) (file_path : String)
    (hex : env.os_path_exists file_path = false) :
    DocumentLoaderFactory.create_loader env file_path =
      .error (.fileNotFoundError ("File not found: " ++ file_path))
  ∧ PDFDocumentLoader.init env file_path =
      .error (.fileNotFoundError ("File not found: " ++ file_path))
  ∧ DOCXDocumentLoader.init env file_path =
      .error (.fileNotFoundError ("File not found: " ++ file_path))
  ∧ TXTDocumentLoader.init env file_path =
      .error (.fileNotFoundError ("File not found: " ++ file_path)) := by
  simp [DocumentLoaderFactory.create_loader, PDFDocumentLoader.init,
    DOCXDocumentLoader.init, TXTDocumentLoader.init, hex]

/-- Witness for C5 at a concrete input: `a.pdf` in the empty filesystem. -/
theorem missing_path_file_not_found_witness :
    DocumentLoaderFactory.create_loader envNone "a.pdf" =
      .error (.fileNotFoundError ("File not found: " ++ "a.pdf"))
  ∧ PDFDocumentLoader.init envNone "a.pdf" =
      .error (.fileNotFoundError ("File not found: " ++ "a.pdf"))
  ∧ DOCXDocumentLoader.init envNone "a.pdf" =
      .error (.fileNotFoundError ("File not found: " ++ "a.pdf"))
  ∧ TXTDocumentLoader.init envNone "a.pdf" =
      .error (.fileNotFoundError ("File not found: " ++ "a.pdf")) :=
  missing_path_file_not_found envNone "a.pdf" rfl

/-- C6: for every loader variant, a parser error during `load` or
`load_and_split` is re-signaled as `FileLoadError` whose message is the
variant's text followed by the original message (so the original message is
contained in the message text); on success `load` returns the parser's
document list unmodified. -/
theorem loader_wraps_parser_errors (env : Env) (l : DocumentLoader)
    (ts : RecursiveCharacterTextSplitter) :
    (∀ m, underlying_load env l = .error m →
      l.load env = .error (.fileLoadError (load_error_text l ++ m)))
  ∧ (∀ m, underlying_load_and_split env ts l = .error m →
      l.load_and_split env ts = .error (.fileLoadError (load_and_split_error_text l ++ m)))
  ∧ (∀ docs, underlying_load env l = .ok docs → l.load env = .ok docs) := by
  refine ⟨?_, ?_, ?_⟩ <;> intro x h <;>
    simp [DocumentLoader.load, DocumentLoader.load_and_split, h]

/-- Witness for C6 at a concrete input: a PDF loader over a failing parser. -/
theorem loader_wraps_parser_errors_witness :
    (DocumentLoader.pdf "a.pdf").load envBoom =
      .error (.fileLoadError ("Error loading PDF file: " ++ "boom")) :=
  (loader_wraps_parser_errors envBoom (.pdf "a.pdf") ⟨100, 20⟩).1 "boom" rfl

/-- C7: when the factory yields a loader for the path, `process_document`
with `load_and_split = true` returns exactly the result of the loader's
`load_and_split` on the splitter built from the held configuration, and with
`load_and_split = false` exactly the result of the loader's plain `load`. -/
theorem facade_dispatch (env : Env) (self : DocumentProcessor)
    (file_path : String) (loader : DocumentLoader) (docs : List Document)
    (hl : DocumentLoaderFactory.create_loader env file_path = .ok loader) :
    (loader.load_and_split env self.config.create_text_splitter = .ok docs →
      self.process_document env file_path true = .ok docs)
  ∧ (loader.load env = .ok docs →
      self.process_document env file_path false = .ok docs) := by
  constructor <;> intro h <;>
    simp [DocumentProcessor.process_document, DocumentProcessor.process_document_body,
      hl, h]

/-- Witness for C7 at a concrete input: an existing `a.txt` whose parses
succeed, split and unsplit. -/
theorem facade_dispatch_witness :
    procDefault.process_document envOk "a.txt" true = .ok [sampleDoc]
  ∧ procDefault.process_document envOk "a.txt" false = .ok [sampleDoc] :=
  ⟨(facade_dispatch envOk procDefault "a.txt" (.txt "a.txt") [sampleDoc] rfl).1 rfl,
   (facade_dispatch envOk procDefault "a.txt" (.txt "a.txt") [sampleDoc] rfl).2 rfl⟩

/-- C8: every successfully constructed configuration satisfies
`0 ≤ chunk_overlap < chunk_size` and stores exactly the validated inputs;
in this embedding every operation is a pure function of the configuration
value, so nothing can mutate it afterwards. -/
theorem config_invariant (chunk_size chunk_overlap : Int) (c : DocumentProcessorConfig)
    (h : DocumentProcessorConfig.init chunk_size chunk_overlap = .ok c) :
    0 ≤ c.chunk_overlap ∧ c.chunk_overlap < c.chunk_size
  ∧ c.chunk_size = chunk_size ∧ c.chunk_overlap = chunk_overlap := by
  unfold DocumentProcessorConfig.init at h
  split_ifs at h with h1 h2 h3 <;> simp at h
  subst h
  refine ⟨?_, ?_, rfl, rfl⟩
  · show 0 ≤ chunk_overlap
    omega
  · show chunk_overlap < chunk_size
    omega

/-- Witness for C8 at a concrete input: the configuration built from 150/30. -/
theorem config_invariant_witness :
    0 ≤ (⟨150, 30⟩ : DocumentProcessorConfig).chunk_overlap
  ∧ (⟨150, 30⟩ : DocumentProcessorConfig).chunk_overlap <
      (⟨150, 30⟩ : DocumentProcessorConfig).chunk_size
  ∧ (⟨150, 30⟩ : DocumentProcessorConfig).chunk_size = 150
  ∧ (⟨150, 30⟩ : DocumentProcessorConfig).chunk_overlap = 30 :=
  config_invariant 150 30 ⟨150, 30⟩ rfl

/-- C9: `create_text_splitter` is a pure function of the stored parameters:
every call yields the splitter with exactly the stored `chunk_size` and
`chunk_overlap` (so repeated calls yield equal splitters and the
configuration is untouched); and for 150/30, construction succeeds and the
factory yields the splitter with those exact parameters. -/
theorem create_text_splitter_pure :
    (∀ c : DocumentProcessorConfig,
      c.create_text_splitter.chunk_size = c.chunk_size ∧
      c.create_text_splitter.chunk_overlap = c.chunk_overlap)
  ∧ DocumentProcessorConfig.init 150 30 = .ok ⟨150, 30⟩
  ∧ (⟨150, 30⟩ : DocumentProcessorConfig).create_text_splitter = ⟨150, 30⟩ :=
  ⟨fun _ => ⟨rfl, rfl⟩, rfl, rfl⟩

/-- C10 (implicit): a `FileLoadError` raised by the loader inside
`process_document` is caught by the generic handler and re-signaled with the
"Unexpected error during document processing: " text prepended to the
loader's already-wrapped message, so a raw parser error reaches the caller
double-wrapped with both the loader text and the facade text. -/
theorem facade_double_wrap (env : Env) (self : DocumentProcessor)
    (file_path : String) (loader : DocumentLoader) (m : String)
    (hl : DocumentLoaderFactory.create_loader env file_path = .ok loader) :
    (loader.load_and_split env self.config.create_text_splitter =
        .error (.fileLoadError m) →
      self.process_document env file_path true =
        .error (.fileLoadError ("Unexpected error during document processing: " ++ m)))
  ∧ (loader.load env = .error (.fileLoadError m) →
      self.process_document env file_path false =
        .error (.fileLoadError ("Unexpected error during document processing: " ++ m)))
  ∧ (underlying_load env loader = .error m →
      self.process_document env file_path false =
        .error (.fileLoadError ("Unexpected error during document processing: " ++
          (load_error_text loader ++ m)))) := by
  refine ⟨?_, ?_, ?_⟩ <;> intro h
  · simp [DocumentProcessor.process_document, DocumentProcessor.process_document_body,
      hl, h, PyException.str]
  · simp [DocumentProcessor.process_document, DocumentProcessor.process_document_body,
      hl, h, PyException.str]
  · simp [DocumentProcessor.process_document, DocumentProcessor.process_document_body,
      DocumentLoader.load, hl, h, PyException.str]

/-- Witness for C10 at a concrete input: an existing `a.pdf` whose parse
raises "boom". -/
theorem facade_double_wrap_witness :
    procDefault.process_document envBoom "a.pdf" true =
      .error (.fileLoadError ("Unexpected error during document processing: " ++
        ("Error loading and splitting PDF file: " ++ "boom"))) :=
  (facade_double_wrap envBoom procDefault "a.pdf" (.pdf "a.pdf")
    ("Error loading and splitting PDF file: " ++ "boom") rfl).1 rfl
